import Mathlib

/-!
Shallow embedding of `src/cloud_simulation.py` (cloud particle lifecycle and
population management).  Python floats are modelled as rationals; every random
draw the code takes from `random` / `numpy` is passed in explicitly as an
oracle value, and the two irrational primitives the code uses (`math.sqrt`,
`math.atan2`/`math.degrees`, `math.pi`) are passed in as abstract parameters,
so that every definition stays executable and mirrors the source line by line.
Frame-keyed memo caches (`_trajectory_cache`, `_coverage_cache`,
`_last_ellipse_cache`) are pure performance devices invalidated on every
change; the embedding models the uncached computation they fall back to.
-/

/-- `CloudTypePreset` (dataclass, src lines 75-96): immutable per-type
configuration. -/
structure CloudTypePreset where
  alt_km : ℚ
  r_km_min : ℚ
  r_km_max : ℚ
  opacity_max : ℚ
  speed_factor : ℚ

/-- The configuration module `sim_config` (`CFG`), as read by the core through
`getattr(CFG, ..., default)` and direct attribute access.  `CLOUD_TYPES` is the
preset lookup used by `CloudTypePreset.from_config`; `SIN_COS` stands for
`cached_sin_cos` applied to the integral direction, returning `(sin, cos)`. -/
structure Config where
  DOMAIN_SIZE_M : ℚ
  AREA_SIZE_KM : ℚ
  PHYSICS_TIMESTEP : ℚ
  CLOUD_DIRECTION : ℤ
  BASE_WIND_SPEED : ℚ
  MOVEMENT_MULTIPLIER : ℚ
  CLOUD_GROWTH_FRAMES : ℕ
  CLOUD_STABLE_FRAMES : ℕ
  CLOUD_DECAY_FRAMES : ℕ
  SCATTER_PROBABILITY : ℚ
  CLOUD_WRAP_AROUND : Bool
  SINGLE_CLOUD_MODE : Bool
  FORCE_INITIAL_CLOUD : Bool
  MAX_PARCELS : ℕ
  SPAWN_PROBABILITY : ℚ
  MIN_SPAWN_INTERVAL : ℚ
  POSITION_HISTORY_LENGTH : ℕ
  CLOUD_TYPES : String → CloudTypePreset
  SIN_COS : ℤ → ℚ × ℚ

/-- `M_PER_FRAME = CFG.PHYSICS_TIMESTEP * (CFG.DOMAIN_SIZE_M / 1000.0)`
(src line 22). -/
def Config.M_PER_FRAME (cfg : Config) : ℚ :=
  cfg.PHYSICS_TIMESTEP * (cfg.DOMAIN_SIZE_M / 1000)

/-- `max_age` property (src lines 188-196): sum of the lifecycle phase
durations. -/
def Config.max_age (cfg : Config) : ℕ :=
  cfg.CLOUD_GROWTH_FRAMES + cfg.CLOUD_STABLE_FRAMES + cfg.CLOUD_DECAY_FRAMES

/-- `OptimizedTrail.add_position` on a `deque(maxlen=...)` (src lines 52-66):
append, evicting the oldest entries past the capacity. -/
def pushTrail (maxLen : ℕ) (tr : List (ℚ × ℚ)) (pos : ℚ × ℚ) : List (ℚ × ℚ) :=
  let tr1 := tr ++ [pos]
  if maxLen < tr1.length then tr1.drop (tr1.length - maxLen) else tr1

/-- `UltraOptimizedCloudParcel` state (src lines 120-177). -/
structure UltraOptimizedCloudParcel where
  x : ℚ
  y : ℚ
  prev_x : ℚ
  prev_y : ℚ
  vx : ℚ
  vy : ℚ
  type : String
  _preset : CloudTypePreset
  r : ℚ
  opacity : ℚ
  alt : ℚ
  age : ℕ
  flag_for_split : Bool
  split_fading : ℕ
  trail : List (ℚ × ℚ)

/-- `UltraOptimizedCloudParcel.__init__` (src lines 135-177).  `jitter` is the
draw `random.uniform(0.95, 1.05)`; the velocity uses
`cached_sin_cos(int(direction))` with `(sin, cos)` ordering, `vx` from `cos`
and `vy` from `sin`, both scaled by `M_PER_FRAME`. -/
def UltraOptimizedCloudParcel.init (cfg : Config) (x y : ℚ) (ctype : String)
    (jitter : ℚ) : UltraOptimizedCloudParcel :=
  let preset := cfg.CLOUD_TYPES ctype
  let speed := cfg.BASE_WIND_SPEED * jitter
  let sc := cfg.SIN_COS cfg.CLOUD_DIRECTION
  { x := x
    y := y
    prev_x := x
    prev_y := y
    vx := speed * sc.2 * cfg.M_PER_FRAME
    vy := speed * sc.1 * cfg.M_PER_FRAME
    type := ctype
    _preset := preset
    r := preset.r_km_max * 2
    opacity := 1
    alt := preset.alt_km
    age := 0
    flag_for_split := false
    split_fading := 0
    trail := [] }

/-- `_get_lifecycle_factors` (src lines 198-226), returning
`(opacity_factor, size_factor, flag_for_split)`.  `scatter_draw` is the value
of `random.random()` consulted in the stable phase; the source mutates
`self.flag_for_split` there, modelled by the third component. -/
def UltraOptimizedCloudParcel._get_lifecycle_factors (cfg : Config)
    (scatter_draw : ℚ) (age : ℕ) (flag : Bool) : ℚ × ℚ × Bool :=
  let growth_frames := cfg.CLOUD_GROWTH_FRAMES
  let stable_frames := cfg.CLOUD_STABLE_FRAMES
  let decay_frames := cfg.CLOUD_DECAY_FRAMES
  if age < growth_frames then
    let progress : ℚ := (age : ℚ) / (growth_frames : ℚ)
    (progress, 0.8 + 0.2 * progress, flag)
  else if age < growth_frames + stable_frames then
    let flag1 := if 0 < cfg.SCATTER_PROBABILITY ∧ scatter_draw < cfg.SCATTER_PROBABILITY
      then true else flag
    (1, 1, flag1)
  else
    let decay_progress0 : ℚ :=
      ((age : ℚ) - (growth_frames : ℚ) - (stable_frames : ℚ)) / (decay_frames : ℚ)
    let decay_progress := min 1 decay_progress0
    (1 - min 0.5 decay_progress, 1 - 0.2 * decay_progress, flag)

/-- `_handle_boundaries` (src lines 268-308): conditional wrap against the
previous position, then the south-west corner removal test; in no-wrap mode a
half-domain margin removal test. -/
def UltraOptimizedCloudParcel._handle_boundaries (cfg : Config)
    (p : UltraOptimizedCloudParcel) : UltraOptimizedCloudParcel × Bool :=
  let d := cfg.DOMAIN_SIZE_M
  if ¬ cfg.CLOUD_WRAP_AROUND then
    let margin := 0.5 * d
    (p, decide (p.x < -margin ∨ p.x > d + margin ∨ p.y < -margin ∨ p.y > d + margin))
  else
    let edge_margin := 0.1 * d
    let x1 :=
      if p.x < -edge_margin then
        if p.prev_x > d * 0.8 then d + edge_margin else p.x
      else if p.x > d + edge_margin then
        if p.prev_x < d * 0.2 then -edge_margin else p.x
      else p.x
    let y1 :=
      if p.y < -edge_margin then
        if p.prev_y > d * 0.8 then d + edge_margin else p.y
      else if p.y > d + edge_margin then
        if p.prev_y < d * 0.2 then -edge_margin else p.y
      else p.y
    let removal_margin := 0.3 * d
    ({p with x := x1, y := y1},
      decide (x1 < -removal_margin ∧ y1 > d + removal_margin))

/-- `UltraOptimizedCloudParcel.step` (src lines 228-266): record previous
position, age, trail, move, boundaries, lifecycle blend, split fade, and the
removal verdict `removal or age >= max_age or r < 0.15`. -/
def UltraOptimizedCloudParcel.step (cfg : Config) (scatter_draw : ℚ)
    (p : UltraOptimizedCloudParcel) : UltraOptimizedCloudParcel × Bool :=
  let p0 := {p with prev_x := p.x, prev_y := p.y, age := p.age + 1,
                    trail := pushTrail cfg.POSITION_HISTORY_LENGTH p.trail (p.x, p.y)}
  let p1 := {p0 with x := p0.x + p0.vx * cfg.MOVEMENT_MULTIPLIER,
                     y := p0.y + p0.vy * cfg.MOVEMENT_MULTIPLIER}
  let hb := UltraOptimizedCloudParcel._handle_boundaries cfg p1
  let p2 := hb.1
  let lf := UltraOptimizedCloudParcel._get_lifecycle_factors cfg scatter_draw
    p2.age p2.flag_for_split
  let opacity_factor := lf.1
  let size_factor := lf.2.1
  let target_size := p2._preset.r_km_max * size_factor * 2
  let target_opacity := max 0.7 (p2._preset.opacity_max * opacity_factor)
  let r1 := p2.r * 0.95 + target_size * 0.05
  let o1 := p2.opacity * 0.95 + target_opacity * 0.05
  let o2 := if 0 < p2.split_fading then o1 * 0.95 else o1
  let sf1 := if 0 < p2.split_fading then p2.split_fading - 1 else p2.split_fading
  let p3 := {p2 with r := r1, opacity := o2, flag_for_split := lf.2.2,
                     split_fading := sf1}
  (p3, hb.2 || decide (cfg.max_age ≤ p3.age) || decide (p3.r < 0.15))

/-- The random draws one `OptimizedWeatherSystem.step` frame consumes, as
oracle streams: `scatterDraw i` is the `random.random()` seen by the `i`-th
parcel's lifecycle, `splitCount i` the `random.randint(2, 3)` for the `i`-th
retained parcel when it splits, `childOffX/Y i j` and `childScale i j` the
`random.uniform` draws for its `j`-th child, `childJitter i j` that child's
constructor speed jitter, and the `spawn*` fields the draws of the single
spawn a frame can perform (position, weighted type choice, jitter, and the
`random.random()` spawn-probability draw). -/
structure Entropy where
  scatterDraw : ℕ → ℚ
  splitCount : ℕ → ℕ
  childOffX : ℕ → ℕ → ℚ
  childOffY : ℕ → ℕ → ℚ
  childScale : ℕ → ℕ → ℚ
  childJitter : ℕ → ℕ → ℚ
  spawnDraw : ℚ
  spawnX : ℚ
  spawnY : ℚ
  spawnType : String
  spawnJitter : ℚ

/-- `OptimizedWeatherSystem` mutable state (src lines 344-364); the memo
caches are omitted (they are invalidated whenever the parcel set changes and
fall back to the pure computations modelled below). -/
structure OptimizedWeatherSystem where
  parcels : List UltraOptimizedCloudParcel
  sim_time : ℚ
  time_since_last_spawn : ℚ

/-- `_create_child_parcel` (src lines 457-470): construct at an offset of at
most half of 1000 m per axis, then override velocity, radius and age. -/
def OptimizedWeatherSystem._create_child_parcel (cfg : Config) (ent : Entropy)
    (i j : ℕ) (parent : UltraOptimizedCloudParcel) : UltraOptimizedCloudParcel :=
  let offset_x := parent.x + ent.childOffX i j * 1000
  let offset_y := parent.y + ent.childOffY i j * 1000
  let child := UltraOptimizedCloudParcel.init cfg offset_x offset_y parent.type
    (ent.childJitter i j)
  {child with vx := parent.vx, vy := parent.vy,
              r := parent.r * ent.childScale i j,
              age := cfg.CLOUD_GROWTH_FRAMES}

/-- `_handle_cloud_scattering` (src lines 431-455): each flagged parcel
contributes its children followed by itself with the flag cleared and
`split_fading = 60`; unflagged parcels pass through.  `i` indexes the retained
parcels for the entropy streams. -/
def OptimizedWeatherSystem._handle_cloud_scattering (cfg : Config) (ent : Entropy) :
    ℕ → List UltraOptimizedCloudParcel → List UltraOptimizedCloudParcel
  | _, [] => []
  | i, p :: rest =>
    if p.flag_for_split then
      let n := ent.splitCount i
      let children := (List.range n).map
        (fun j => OptimizedWeatherSystem._create_child_parcel cfg ent i j p)
      children ++ ({p with flag_for_split := false, split_fading := 60} ::
        OptimizedWeatherSystem._handle_cloud_scattering cfg ent (i + 1) rest)
    else
      p :: OptimizedWeatherSystem._handle_cloud_scattering cfg ent (i + 1) rest

/-- The batch update `[p for p in self.parcels if not p.step(...)]`
(src line 414): every parcel is stepped, those reporting removal are dropped.
`i` indexes the parcel position for the scatter-draw stream. -/
def stepParcels (cfg : Config) (ent : Entropy) :
    ℕ → List UltraOptimizedCloudParcel → List UltraOptimizedCloudParcel
  | _, [] => []
  | i, p :: rest =>
    let sp := UltraOptimizedCloudParcel.step cfg (ent.scatterDraw i) p
    if sp.2 then stepParcels cfg ent (i + 1) rest
    else sp.1 :: stepParcels cfg ent (i + 1) rest

/-- `_spawn` / `_spawn_center_cloud` (src lines 378-389, 501-512): append one
freshly constructed parcel at the NE-corner draw with the weighted type
choice.  (The caller resets the spawn timer.) -/
def OptimizedWeatherSystem._spawn (cfg : Config) (ent : Entropy)
    (ws : OptimizedWeatherSystem) : OptimizedWeatherSystem :=
  {ws with parcels := ws.parcels ++
    [UltraOptimizedCloudParcel.init cfg ent.spawnX ent.spawnY ent.spawnType ent.spawnJitter]}

/-- `_handle_spawning` (src lines 472-499). -/
def OptimizedWeatherSystem._handle_spawning (cfg : Config) (ent : Entropy)
    (ws : OptimizedWeatherSystem) : OptimizedWeatherSystem :=
  if cfg.SINGLE_CLOUD_MODE then
    if ws.parcels.length = 0 then
      {OptimizedWeatherSystem._spawn cfg ent ws with time_since_last_spawn := 0}
    else ws
  else
    let can_spawn : Bool := decide (cfg.MIN_SPAWN_INTERVAL < ws.time_since_last_spawn)
    let should_spawn : Bool := can_spawn
      && decide (ws.parcels.length < cfg.MAX_PARCELS)
      && (decide (ent.spawnDraw < cfg.SPAWN_PROBABILITY) || decide (ws.parcels.length = 0))
    let ws2 := if should_spawn then
        {OptimizedWeatherSystem._spawn cfg ent ws with time_since_last_spawn := 0}
      else ws
    if ws2.parcels.length = 0 ∧ cfg.FORCE_INITIAL_CLOUD then
      {OptimizedWeatherSystem._spawn cfg ent ws2 with time_since_last_spawn := 0}
    else ws2

/-- `OptimizedWeatherSystem.step` (src lines 391-429): update `sim_time`
(explicit `t_s`/`t` override, else increment), accumulate the spawn timer by
`dt` (defaulting to the configured timestep), forced respawn-and-return on an
empty collection, else batch advance, scattering, and the spawn policy. -/
def OptimizedWeatherSystem.step (cfg : Config) (ent : Entropy)
    (dt t t_s : Option ℚ) (ws : OptimizedWeatherSystem) : OptimizedWeatherSystem :=
  let sim_time :=
    match t_s, t with
    | some v, _ => v
    | none, some v => v
    | none, none => ws.sim_time + 1
  let dtv := dt.getD cfg.PHYSICS_TIMESTEP
  let ws1 := {ws with sim_time := sim_time,
                      time_since_last_spawn := ws.time_since_last_spawn + dtv}
  if ws1.parcels.isEmpty then
    {OptimizedWeatherSystem._spawn cfg ent ws1 with time_since_last_spawn := 0}
  else
    let active := stepParcels cfg ent 0 ws1.parcels
    let scattered := OptimizedWeatherSystem._handle_cloud_scattering cfg ent 0 active
    OptimizedWeatherSystem._handle_spawning cfg ent {ws1 with parcels := scattered}

/-- The summand of the coverage computation: `math.pi * (p.r ** 2)` for each
parcel (src line 564), with `math.pi` abstracted as `piQ`. -/
def totalDiskArea (piQ : ℚ) (ps : List UltraOptimizedCloudParcel) : ℚ :=
  (ps.map (fun p => piQ * p.r ^ 2)).sum

/-- `current_cloud_cover_pct` (src lines 551-570), uncached computation. -/
def OptimizedWeatherSystem.current_cloud_cover_pct (piQ : ℚ) (cfg : Config)
    (ws : OptimizedWeatherSystem) : ℚ :=
  if ws.parcels.isEmpty then 0
  else
    let total_area := totalDiskArea piQ ws.parcels
    let domain_area := cfg.AREA_SIZE_KM * cfg.AREA_SIZE_KM
    min 100 (total_area / domain_area * 100 * 5)

/-- Mean `vx` over the parcel list (src lines 527-530). -/
def avg_vx (ps : List UltraOptimizedCloudParcel) : ℚ :=
  (ps.map (fun p => p.vx)).sum / (ps.length : ℚ)

/-- Mean `vy` over the parcel list (src lines 527-531). -/
def avg_vy (ps : List UltraOptimizedCloudParcel) : ℚ :=
  (ps.map (fun p => p.vy)).sum / (ps.length : ℚ)

/-- Python float `%`: `x % m = x - m * floor(x / m)`. -/
def pymod (x m : ℚ) : ℚ := x - m * (⌊x / m⌋ : ℤ)

/-- `get_avg_trajectory` (src lines 514-549), uncached computation.  `sqrtQ`
abstracts `math.sqrt` and `atan2deg` abstracts
`math.degrees(math.atan2 ...)`; the source's inner `if velocities:` guard is
always taken in the non-empty branch since `velocities` has one entry per
parcel. -/
def OptimizedWeatherSystem.get_avg_trajectory (sqrtQ : ℚ → ℚ)
    (atan2deg : ℚ → ℚ → ℚ) (cfg : Config) (ws : OptimizedWeatherSystem) :
    Option ℚ × Option ℚ × ℚ :=
  if ws.parcels.isEmpty then (none, none, 0)
  else
    let vxm := avg_vx ws.parcels
    let vym := avg_vy ws.parcels
    let speed := sqrtQ (vxm ^ 2 + vym ^ 2)
    let direction := pymod (atan2deg vym vxm) 360
    let speed_kmh := speed * 3.6 / cfg.M_PER_FRAME
    (some speed_kmh, some direction, 0.9)

/-- The renderer tuple `(x, y, width, height, rotation, opacity, alt, type)`
(src line 324). -/
structure EllipseT where
  x : ℚ
  y : ℚ
  width : ℚ
  height : ℚ
  rot : ℚ
  opacity : ℚ
  alt : ℚ
  ctype : String

/-- Linear interpolation `a * (1-t) + b * t` applied to every numeric tuple
slot (src lines 612-616). -/
def lerp (a b t : ℚ) : ℚ := a * (1 - t) + b * t

/-- The matched-pair branch of `interpolate_ellipses` (src lines 610-617):
numeric slots are lerped, the string slot (the type tag) is kept from the
first tuple. -/
def interpolate_pair (e1 e2 : EllipseT) (t : ℚ) : EllipseT :=
  { x := lerp e1.x e2.x t
    y := lerp e1.y e2.y t
    width := lerp e1.width e2.width t
    height := lerp e1.height e2.height t
    rot := lerp e1.rot e2.rot t
    opacity := lerp e1.opacity e2.opacity t
    alt := lerp e1.alt e2.alt t
    ctype := e1.ctype }

/-- Scale only slot 5 (the opacity) by `s`, keeping every other field
(src lines 596-603, 618-633). -/
def fade_opacity (e : EllipseT) (s : ℚ) : EllipseT :=
  {e with opacity := e.opacity * s}

/-- Placeholder for the unreachable out-of-range index of the source's final
`else` branch. -/
def dummyEllipse : EllipseT :=
  { x := 0, y := 0, width := 0, height := 0, rot := 0, opacity := 0, alt := 0, ctype := "" }

/-- `interpolate_ellipses` (src lines 590-635). -/
def interpolate_ellipses (ellipses1 ellipses2 : List EllipseT) (t : ℚ) :
    List EllipseT :=
  if ellipses1.isEmpty && ellipses2.isEmpty then []
  else if ellipses1.isEmpty then
    ellipses2.map (fun e => fade_opacity e t)
  else if ellipses2.isEmpty then
    ellipses1.map (fun e => fade_opacity e (1 - t))
  else
    (List.range (max ellipses1.length ellipses2.length)).map (fun i =>
      if h1 : i < ellipses1.length then
        if h2 : i < ellipses2.length then
          interpolate_pair (ellipses1.get ⟨i, h1⟩) (ellipses2.get ⟨i, h2⟩) t
        else
          fade_opacity (ellipses1.get ⟨i, h1⟩) (1 - t)
      else
        fade_opacity (ellipses2.getD i dummyEllipse) t)

/-! ## Component lemmas about `_handle_boundaries` and `step` -/

theorem hb_keeps_r (cfg : Config) (p : UltraOptimizedCloudParcel) :
    (UltraOptimizedCloudParcel._handle_boundaries cfg p).1.r = p.r := by
  unfold UltraOptimizedCloudParcel._handle_boundaries
  split <;> rfl

theorem hb_keeps_opacity (cfg : Config) (p : UltraOptimizedCloudParcel) :
    (UltraOptimizedCloudParcel._handle_boundaries cfg p).1.opacity = p.opacity := by
  unfold UltraOptimizedCloudParcel._handle_boundaries
  split <;> rfl

theorem hb_keeps_age (cfg : Config) (p : UltraOptimizedCloudParcel) :
    (UltraOptimizedCloudParcel._handle_boundaries cfg p).1.age = p.age := by
  unfold UltraOptimizedCloudParcel._handle_boundaries
  split <;> rfl

theorem hb_keeps_preset (cfg : Config) (p : UltraOptimizedCloudParcel) :
    (UltraOptimizedCloudParcel._handle_boundaries cfg p).1._preset = p._preset := by
  unfold UltraOptimizedCloudParcel._handle_boundaries
  split <;> rfl

theorem hb_keeps_flag (cfg : Config) (p : UltraOptimizedCloudParcel) :
    (UltraOptimizedCloudParcel._handle_boundaries cfg p).1.flag_for_split =
      p.flag_for_split := by
  unfold UltraOptimizedCloudParcel._handle_boundaries
  split <;> rfl

theorem hb_keeps_fading (cfg : Config) (p : UltraOptimizedCloudParcel) :
    (UltraOptimizedCloudParcel._handle_boundaries cfg p).1.split_fading =
      p.split_fading := by
  unfold UltraOptimizedCloudParcel._handle_boundaries
  split <;> rfl

theorem step_r_eq (cfg : Config) (draw : ℚ) (p : UltraOptimizedCloudParcel) :
    (UltraOptimizedCloudParcel.step cfg draw p).1.r =
      p.r * 0.95 + p._preset.r_km_max *
        (UltraOptimizedCloudParcel._get_lifecycle_factors cfg draw (p.age + 1)
          p.flag_for_split).2.1 * 2 * 0.05 := by
  simp only [UltraOptimizedCloudParcel.step, hb_keeps_r, hb_keeps_age, hb_keeps_preset,
    hb_keeps_flag, hb_keeps_opacity, hb_keeps_fading]

theorem step_opacity_eq (cfg : Config) (draw : ℚ) (p : UltraOptimizedCloudParcel) :
    (UltraOptimizedCloudParcel.step cfg draw p).1.opacity =
      (if 0 < p.split_fading then
        (p.opacity * 0.95 + max 0.7 (p._preset.opacity_max *
          (UltraOptimizedCloudParcel._get_lifecycle_factors cfg draw (p.age + 1)
            p.flag_for_split).1) * 0.05) * 0.95
      else
        p.opacity * 0.95 + max 0.7 (p._preset.opacity_max *
          (UltraOptimizedCloudParcel._get_lifecycle_factors cfg draw (p.age + 1)
            p.flag_for_split).1) * 0.05) := by
  simp only [UltraOptimizedCloudParcel.step, hb_keeps_r, hb_keeps_age, hb_keeps_preset,
    hb_keeps_flag, hb_keeps_opacity, hb_keeps_fading]

theorem step_age_eq (cfg : Config) (draw : ℚ) (p : UltraOptimizedCloudParcel) :
    (UltraOptimizedCloudParcel.step cfg draw p).1.age = p.age + 1 := by
  simp only [UltraOptimizedCloudParcel.step, hb_keeps_r, hb_keeps_age, hb_keeps_preset,
    hb_keeps_flag, hb_keeps_opacity, hb_keeps_fading]

theorem step_flag_eq (cfg : Config) (draw : ℚ) (p : UltraOptimizedCloudParcel) :
    (UltraOptimizedCloudParcel.step cfg draw p).1.flag_for_split =
      (UltraOptimizedCloudParcel._get_lifecycle_factors cfg draw (p.age + 1)
        p.flag_for_split).2.2 := by
  simp only [UltraOptimizedCloudParcel.step, hb_keeps_r, hb_keeps_age, hb_keeps_preset,
    hb_keeps_flag, hb_keeps_opacity, hb_keeps_fading]

/-! ## Lifecycle factor bounds -/

theorem lifecycle_factor_bounds (cfg : Config) (draw : ℚ) (age : ℕ) (flag : Bool) :
    0 ≤ (UltraOptimizedCloudParcel._get_lifecycle_factors cfg draw age flag).1 ∧
    (UltraOptimizedCloudParcel._get_lifecycle_factors cfg draw age flag).1 ≤ 1 ∧
    0 ≤ (UltraOptimizedCloudParcel._get_lifecycle_factors cfg draw age flag).2.1 ∧
    (UltraOptimizedCloudParcel._get_lifecycle_factors cfg draw age flag).2.1 ≤ 1 := by
  by_cases h1 : age < cfg.CLOUD_GROWTH_FRAMES
  · have hg1 : (age : ℚ) < (cfg.CLOUD_GROWTH_FRAMES : ℚ) := by exact_mod_cast h1
    have h0 : (0 : ℚ) ≤ (age : ℚ) := by positivity
    have hgp : (0 : ℚ) < (cfg.CLOUD_GROWTH_FRAMES : ℚ) := lt_of_le_of_lt h0 hg1
    have hq0 : (0 : ℚ) ≤ (age : ℚ) / (cfg.CLOUD_GROWTH_FRAMES : ℚ) := by positivity
    have hq1 : (age : ℚ) / (cfg.CLOUD_GROWTH_FRAMES : ℚ) ≤ 1 :=
      (div_le_one hgp).mpr hg1.le
    simp only [UltraOptimizedCloudParcel._get_lifecycle_factors, if_pos h1]
    refine ⟨hq0, hq1, by nlinarith, by nlinarith⟩
  · by_cases h2 : age < cfg.CLOUD_GROWTH_FRAMES + cfg.CLOUD_STABLE_FRAMES
    · simp only [UltraOptimizedCloudParcel._get_lifecycle_factors, if_neg h1, if_pos h2]
      norm_num
    · simp only [UltraOptimizedCloudParcel._get_lifecycle_factors, if_neg h1, if_neg h2]
      have hge : cfg.CLOUD_GROWTH_FRAMES + cfg.CLOUD_STABLE_FRAMES ≤ age :=
        Nat.le_of_not_lt h2
      have hnum : (0 : ℚ) ≤ (age : ℚ) - (cfg.CLOUD_GROWTH_FRAMES : ℚ) -
          (cfg.CLOUD_STABLE_FRAMES : ℚ) := by
        have : ((cfg.CLOUD_GROWTH_FRAMES + cfg.CLOUD_STABLE_FRAMES : ℕ) : ℚ) ≤ (age : ℚ) := by
          exact_mod_cast hge
        push_cast at this
        linarith
      have hdp0 : (0 : ℚ) ≤ ((age : ℚ) - (cfg.CLOUD_GROWTH_FRAMES : ℚ) -
          (cfg.CLOUD_STABLE_FRAMES : ℚ)) / (cfg.CLOUD_DECAY_FRAMES : ℚ) := by positivity
      have hmin0 : (0 : ℚ) ≤ min 1 (((age : ℚ) - (cfg.CLOUD_GROWTH_FRAMES : ℚ) -
          (cfg.CLOUD_STABLE_FRAMES : ℚ)) / (cfg.CLOUD_DECAY_FRAMES : ℚ)) :=
        le_min (by norm_num) hdp0
      have hmin1 : min 1 (((age : ℚ) - (cfg.CLOUD_GROWTH_FRAMES : ℚ) -
          (cfg.CLOUD_STABLE_FRAMES : ℚ)) / (cfg.CLOUD_DECAY_FRAMES : ℚ)) ≤ 1 :=
        min_le_left _ _
      have hm0 : (0 : ℚ) ≤ min 0.5 (min 1 (((age : ℚ) - (cfg.CLOUD_GROWTH_FRAMES : ℚ) -
          (cfg.CLOUD_STABLE_FRAMES : ℚ)) / (cfg.CLOUD_DECAY_FRAMES : ℚ))) :=
        le_min (by norm_num) hmin0
      have hm1 : min 0.5 (min 1 (((age : ℚ) - (cfg.CLOUD_GROWTH_FRAMES : ℚ) -
          (cfg.CLOUD_STABLE_FRAMES : ℚ)) / (cfg.CLOUD_DECAY_FRAMES : ℚ))) ≤ 0.5 :=
        min_le_left _ _
      refine ⟨by linarith, by linarith, by nlinarith, by nlinarith⟩

/-- C1: for every particle whose type preset has `maxOpacity` in `[0,1]` (and a
nonnegative maximum radius), a `step`/advance call preserves the state
invariant `0 <= opacity <= 1` and `radiusKm >= 0`: since every particle is
created satisfying it (opacity 1, radius `2 * r_km_max >= 0`, split children
scale a nonnegative radius by a nonnegative factor), the invariant holds after
every `advance` call. -/
theorem c1_step_preserves_opacity_radius_bounds (cfg : Config) (draw : ℚ)
    (p : UltraOptimizedCloudParcel)
    (h_om0 : 0 ≤ p._preset.opacity_max) (h_om1 : p._preset.opacity_max ≤ 1)
    (h_rm : 0 ≤ p._preset.r_km_max)
    (h_o0 : 0 ≤ p.opacity) (h_o1 : p.opacity ≤ 1) (h_r : 0 ≤ p.r) :
    0 ≤ (UltraOptimizedCloudParcel.step cfg draw p).1.opacity ∧
    (UltraOptimizedCloudParcel.step cfg draw p).1.opacity ≤ 1 ∧
    0 ≤ (UltraOptimizedCloudParcel.step cfg draw p).1.r := by
  obtain ⟨hof0, hof1, hsf0, hsf1⟩ :=
    lifecycle_factor_bounds cfg draw (p.age + 1) p.flag_for_split
  rw [step_opacity_eq, step_r_eq]
  set of := (UltraOptimizedCloudParcel._get_lifecycle_factors cfg draw (p.age + 1)
    p.flag_for_split).1 with hof
  set sf := (UltraOptimizedCloudParcel._get_lifecycle_factors cfg draw (p.age + 1)
    p.flag_for_split).2.1 with hsf
  have hmax0 : (0.7 : ℚ) ≤ max 0.7 (p._preset.opacity_max * of) := le_max_left _ _
  have hmax1 : max 0.7 (p._preset.opacity_max * of) ≤ 1 :=
    max_le (by norm_num) (by nlinarith)
  have ho1b : 0 ≤ p.opacity * 0.95 + max 0.7 (p._preset.opacity_max * of) * 0.05 := by
    nlinarith
  have ho2b : p.opacity * 0.95 + max 0.7 (p._preset.opacity_max * of) * 0.05 ≤ 1 := by
    nlinarith
  refine ⟨?_, ?_, by nlinarith⟩
  · split <;> nlinarith
  · split <;> nlinarith

/-! ## Concrete fixtures shared by witnesses and counterexamples -/

/-- A concrete preset: altitude 8 km, radius range [0.5, 1] km, maximum
opacity 0.8, speed factor 1. -/
def presetA : CloudTypePreset :=
  { alt_km := 8, r_km_min := 0.5, r_km_max := 1, opacity_max := 0.8, speed_factor := 1 }

/-- A concrete configuration with the source's documented defaults. -/
def cfgA : Config :=
  { DOMAIN_SIZE_M := 50000
    AREA_SIZE_KM := 50
    PHYSICS_TIMESTEP := 1
    CLOUD_DIRECTION := 135
    BASE_WIND_SPEED := 4
    MOVEMENT_MULTIPLIER := 1
    CLOUD_GROWTH_FRAMES := 300
    CLOUD_STABLE_FRAMES := 1800
    CLOUD_DECAY_FRAMES := 300
    SCATTER_PROBABILITY := 0
    CLOUD_WRAP_AROUND := true
    SINGLE_CLOUD_MODE := false
    FORCE_INITIAL_CLOUD := false
    MAX_PARCELS := 6
    SPAWN_PROBABILITY := 0.2
    MIN_SPAWN_INTERVAL := 10
    POSITION_HISTORY_LENGTH := 15
    CLOUD_TYPES := fun _ => presetA
    SIN_COS := fun _ => (0, 0) }

/-- A concrete mid-domain parcel in the stable phase with a fading countdown
of 1 frame. -/
def parcelA : UltraOptimizedCloudParcel :=
  { x := 1000, y := 1000, prev_x := 1000, prev_y := 1000, vx := 0, vy := 0,
    type := "cumulus", _preset := presetA, r := 10, opacity := 0.5, alt := 8,
    age := 400, flag_for_split := false, split_fading := 1, trail := [] }

/-- Witness for C1 at the concrete stable-phase parcel `parcelA`. -/
theorem c1_witness :
    0 ≤ (UltraOptimizedCloudParcel.step cfgA 1 parcelA).1.opacity ∧
    (UltraOptimizedCloudParcel.step cfgA 1 parcelA).1.opacity ≤ 1 ∧
    0 ≤ (UltraOptimizedCloudParcel.step cfgA 1 parcelA).1.r :=
  c1_step_preserves_opacity_radius_bounds cfgA 1 parcelA
    (by norm_num [parcelA, presetA]) (by norm_num [parcelA, presetA])
    (by norm_num [parcelA, presetA]) (by norm_num [parcelA])
    (by norm_num [parcelA]) (by norm_num [parcelA])

/-- C10: every newly constructed particle (scheduler spawn and split child
before its overrides both go through `__init__`) starts with opacity 1.0,
radius exactly twice its preset's maximum radius, age 0, split flag false,
split fade countdown 0, and previous position equal to its position. -/
theorem c10_init_fields (cfg : Config) (x y : ℚ) (ctype : String) (jitter : ℚ) :
    (UltraOptimizedCloudParcel.init cfg x y ctype jitter).opacity = 1 ∧
    (UltraOptimizedCloudParcel.init cfg x y ctype jitter).r =
      (cfg.CLOUD_TYPES ctype).r_km_max * 2 ∧
    (UltraOptimizedCloudParcel.init cfg x y ctype jitter).age = 0 ∧
    (UltraOptimizedCloudParcel.init cfg x y ctype jitter).flag_for_split = false ∧
    (UltraOptimizedCloudParcel.init cfg x y ctype jitter).split_fading = 0 ∧
    (UltraOptimizedCloudParcel.init cfg x y ctype jitter).x = x ∧
    (UltraOptimizedCloudParcel.init cfg x y ctype jitter).y = y ∧
    (UltraOptimizedCloudParcel.init cfg x y ctype jitter).prev_x = x ∧
    (UltraOptimizedCloudParcel.init cfg x y ctype jitter).prev_y = y :=
  ⟨rfl, rfl, rfl, rfl, rfl, rfl, rfl, rfl, rfl⟩

/-- C4 counterexample: at `parcelA` (stable phase, so both lifecycle factors
are 1, with a positive split fade countdown) the step produces
`r = 9.6` and `opacity = 0.48925`, while the claim's formulas predict
`0.95*10 + 0.05*(1*1) = 9.55` and `0.95*0.5 + 0.05*max(0.7, 0.8*1) = 0.515`:
the radius target misses the `* 2.0` visibility factor and the opacity update
misses the extra `* 0.95` split-fade multiplication. -/
theorem c4_counterexample :
    (UltraOptimizedCloudParcel.step cfgA 1 parcelA).1.r ≠
      parcelA.r * 0.95 + parcelA._preset.r_km_max * 1 * 0.05 ∧
    (UltraOptimizedCloudParcel.step cfgA 1 parcelA).1.opacity ≠
      parcelA.opacity * 0.95 + max 0.7 (parcelA._preset.opacity_max * 1) * 0.05 := by
  rw [step_r_eq, step_opacity_eq]
  norm_num [UltraOptimizedCloudParcel._get_lifecycle_factors, parcelA, presetA, cfgA]

/-- C4 (amended): each advance updates `radiusKm` to
`0.95*old + 0.05*(presetMaxRadius * sizeFactor * 2.0)` (the target carries the
same doubling used at creation), and updates opacity to
`0.95*old + 0.05*max(0.7, presetMaxOpacity * opacityFactor)`, additionally
multiplied by `0.95` when the split fade countdown was positive; the factors
are the lifecycle factors at the incremented age. -/
theorem c4_amended_blend_update (cfg : Config) (draw : ℚ)
    (p : UltraOptimizedCloudParcel) :
    (UltraOptimizedCloudParcel.step cfg draw p).1.r =
      p.r * 0.95 + p._preset.r_km_max *
        (UltraOptimizedCloudParcel._get_lifecycle_factors cfg draw (p.age + 1)
          p.flag_for_split).2.1 * 2 * 0.05 ∧
    (UltraOptimizedCloudParcel.step cfg draw p).1.opacity =
      (if 0 < p.split_fading then
        (p.opacity * 0.95 + max 0.7 (p._preset.opacity_max *
          (UltraOptimizedCloudParcel._get_lifecycle_factors cfg draw (p.age + 1)
            p.flag_for_split).1) * 0.05) * 0.95
      else
        p.opacity * 0.95 + max 0.7 (p._preset.opacity_max *
          (UltraOptimizedCloudParcel._get_lifecycle_factors cfg draw (p.age + 1)
            p.flag_for_split).1) * 0.05) :=
  ⟨step_r_eq cfg draw p, step_opacity_eq cfg draw p⟩

/-- C2: in wrap mode a particle that crossed an edge beyond the 0.1*d margin
is translated to the opposite edge only if its previous coordinate was near
that opposite edge (past 0.8*d resp. under 0.2*d), for all four edges; and the
boundary policy reports removal exactly when the (post-wrap) position is
simultaneously beyond 0.3*d outside the west edge and beyond 0.3*d outside the
south edge (`y > d + 0.3*d`, y growing southward). -/
theorem c2_boundary_wrap_and_removal (cfg : Config) (p : UltraOptimizedCloudParcel)
    (hwrap : cfg.CLOUD_WRAP_AROUND = true) (hd : 0 < cfg.DOMAIN_SIZE_M) :
    (p.x < -(0.1 * cfg.DOMAIN_SIZE_M) → ¬ (p.prev_x > cfg.DOMAIN_SIZE_M * 0.8) →
      (UltraOptimizedCloudParcel._handle_boundaries cfg p).1.x = p.x) ∧
    (p.x < -(0.1 * cfg.DOMAIN_SIZE_M) → p.prev_x > cfg.DOMAIN_SIZE_M * 0.8 →
      (UltraOptimizedCloudParcel._handle_boundaries cfg p).1.x =
        cfg.DOMAIN_SIZE_M + 0.1 * cfg.DOMAIN_SIZE_M) ∧
    (p.x > cfg.DOMAIN_SIZE_M + 0.1 * cfg.DOMAIN_SIZE_M →
      ¬ (p.prev_x < cfg.DOMAIN_SIZE_M * 0.2) →
      (UltraOptimizedCloudParcel._handle_boundaries cfg p).1.x = p.x) ∧
    (p.x > cfg.DOMAIN_SIZE_M + 0.1 * cfg.DOMAIN_SIZE_M →
      p.prev_x < cfg.DOMAIN_SIZE_M * 0.2 →
      (UltraOptimizedCloudParcel._handle_boundaries cfg p).1.x =
        -(0.1 * cfg.DOMAIN_SIZE_M)) ∧
    (p.y < -(0.1 * cfg.DOMAIN_SIZE_M) → ¬ (p.prev_y > cfg.DOMAIN_SIZE_M * 0.8) →
      (UltraOptimizedCloudParcel._handle_boundaries cfg p).1.y = p.y) ∧
    (p.y < -(0.1 * cfg.DOMAIN_SIZE_M) → p.prev_y > cfg.DOMAIN_SIZE_M * 0.8 →
      (UltraOptimizedCloudParcel._handle_boundaries cfg p).1.y =
        cfg.DOMAIN_SIZE_M + 0.1 * cfg.DOMAIN_SIZE_M) ∧
    (p.y > cfg.DOMAIN_SIZE_M + 0.1 * cfg.DOMAIN_SIZE_M →
      ¬ (p.prev_y < cfg.DOMAIN_SIZE_M * 0.2) →
      (UltraOptimizedCloudParcel._handle_boundaries cfg p).1.y = p.y) ∧
    (p.y > cfg.DOMAIN_SIZE_M + 0.1 * cfg.DOMAIN_SIZE_M →
      p.prev_y < cfg.DOMAIN_SIZE_M * 0.2 →
      (UltraOptimizedCloudParcel._handle_boundaries cfg p).1.y =
        -(0.1 * cfg.DOMAIN_SIZE_M)) ∧
    ((UltraOptimizedCloudParcel._handle_boundaries cfg p).2 = true ↔
      ((UltraOptimizedCloudParcel._handle_boundaries cfg p).1.x <
          -(0.3 * cfg.DOMAIN_SIZE_M) ∧
        (UltraOptimizedCloudParcel._handle_boundaries cfg p).1.y >
          cfg.DOMAIN_SIZE_M + 0.3 * cfg.DOMAIN_SIZE_M)) := by
  simp only [UltraOptimizedCloudParcel._handle_boundaries, hwrap, not_true_eq_false,
    if_false, decide_eq_true_eq, gt_iff_lt]
  refine ⟨?_, ?_, ?_, ?_, ?_, ?_, ?_, ?_, trivial⟩ <;>
    · intro h1 h2
      split_ifs <;> first | rfl | linarith

/-- Witness for C2 at `cfgA` (wrap mode, positive domain) and `parcelA`. -/
theorem c2_witness :
    (UltraOptimizedCloudParcel._handle_boundaries cfgA parcelA).2 = true ↔
      ((UltraOptimizedCloudParcel._handle_boundaries cfgA parcelA).1.x <
          -(0.3 * cfgA.DOMAIN_SIZE_M) ∧
        (UltraOptimizedCloudParcel._handle_boundaries cfgA parcelA).1.y >
          cfgA.DOMAIN_SIZE_M + 0.3 * cfgA.DOMAIN_SIZE_M) :=
  (c2_boundary_wrap_and_removal cfgA parcelA rfl
    (by norm_num [cfgA])).2.2.2.2.2.2.2.2

/-! ## Scheduler lemmas -/

theorem lf_flag_of_no_scatter (cfg : Config) (draw : ℚ) (age : ℕ) (flag : Bool)
    (h : cfg.SCATTER_PROBABILITY = 0) :
    (UltraOptimizedCloudParcel._get_lifecycle_factors cfg draw age flag).2.2 = flag := by
  unfold UltraOptimizedCloudParcel._get_lifecycle_factors
  by_cases h1 : age < cfg.CLOUD_GROWTH_FRAMES
  · simp [if_pos h1]
  · by_cases h2 : age < cfg.CLOUD_GROWTH_FRAMES + cfg.CLOUD_STABLE_FRAMES
    · simp [if_neg h1, if_pos h2, h]
    · simp [if_neg h1, if_neg h2]

theorem step_flag_of_no_scatter (cfg : Config) (draw : ℚ)
    (p : UltraOptimizedCloudParcel) (h : cfg.SCATTER_PROBABILITY = 0) :
    (UltraOptimizedCloudParcel.step cfg draw p).1.flag_for_split =
      p.flag_for_split := by
  rw [step_flag_eq, lf_flag_of_no_scatter _ _ _ _ h]

theorem stepParcels_length_le (cfg : Config) (ent : Entropy) (i : ℕ)
    (ps : List UltraOptimizedCloudParcel) :
    (stepParcels cfg ent i ps).length ≤ ps.length := by
  induction ps generalizing i with
  | nil => simp [stepParcels]
  | cons p rest ih =>
    simp only [stepParcels]
    split
    · exact (ih (i + 1)).trans (Nat.le_succ _)
    · simpa using ih (i + 1)

theorem stepParcels_flags_false (cfg : Config) (ent : Entropy)
    (h : cfg.SCATTER_PROBABILITY = 0) (i : ℕ)
    (ps : List UltraOptimizedCloudParcel)
    (hps : ∀ p ∈ ps, p.flag_for_split = false) :
    ∀ q ∈ stepParcels cfg ent i ps, q.flag_for_split = false := by
  induction ps generalizing i with
  | nil => intro q hq; simp [stepParcels] at hq
  | cons p rest ih =>
    intro q hq
    simp only [stepParcels] at hq
    split at hq
    · exact ih (i + 1) (fun r hr => hps r (List.mem_cons_of_mem _ hr)) q hq
    · rcases List.mem_cons.mp hq with hq1 | hq2
      · rw [hq1, step_flag_of_no_scatter cfg _ p h]
        exact hps p (List.mem_cons_self _ _)
      · exact ih (i + 1) (fun r hr => hps r (List.mem_cons_of_mem _ hr)) q hq2

theorem scattering_id_of_no_flags (cfg : Config) (ent : Entropy) (i : ℕ)
    (ps : List UltraOptimizedCloudParcel)
    (h : ∀ p ∈ ps, p.flag_for_split = false) :
    OptimizedWeatherSystem._handle_cloud_scattering cfg ent i ps = ps := by
  induction ps generalizing i with
  | nil => simp [OptimizedWeatherSystem._handle_cloud_scattering]
  | cons p rest ih =>
    have hp : p.flag_for_split = false := h p (List.mem_cons_self _ _)
    simp only [OptimizedWeatherSystem._handle_cloud_scattering, hp]
    simp [ih (i + 1) (fun r hr => h r (List.mem_cons_of_mem _ hr))]

theorem handle_spawning_length (cfg : Config) (ent : Entropy)
    (ws : OptimizedWeatherSystem) (hmax : 1 ≤ cfg.MAX_PARCELS) :
    (OptimizedWeatherSystem._handle_spawning cfg ent ws).parcels.length ≤
      max ws.parcels.length cfg.MAX_PARCELS := by
  simp only [OptimizedWeatherSystem._handle_spawning, OptimizedWeatherSystem._spawn]
  split_ifs with h1 h2 h3 h4 h5 <;>
    simp_all [List.length_append] <;> omega

/-- C3 (amended): after a `step` in which no split can occur (no particle is
flagged and the scatter probability is 0), the population never exceeds
`max(pre-step population, MAX_PARCELS)`; in particular a population within the
cap stays within the cap.  Split events, however, can leave the post-step
population above `MAX_PARCELS` (see the counterexample), since children are
added after retirement filtering and only the spawn policy checks the cap. -/
theorem c3_amended_population_cap (cfg : Config) (ent : Entropy)
    (dt t t_s : Option ℚ) (ws : OptimizedWeatherSystem)
    (hflags : ∀ p ∈ ws.parcels, p.flag_for_split = false)
    (hscatter : cfg.SCATTER_PROBABILITY = 0)
    (hmax : 1 ≤ cfg.MAX_PARCELS) :
    (OptimizedWeatherSystem.step cfg ent dt t t_s ws).parcels.length ≤
      max ws.parcels.length cfg.MAX_PARCELS := by
  simp only [OptimizedWeatherSystem.step]
  by_cases hemp : ws.parcels.isEmpty
  · simp [hemp, OptimizedWeatherSystem._spawn, List.isEmpty_iff.mp hemp]
    exact hmax
  · simp only [hemp, Bool.false_eq_true, if_false]
    have hflags2 := stepParcels_flags_false cfg ent hscatter 0 ws.parcels hflags
    rw [scattering_id_of_no_flags cfg ent 0 _ hflags2]
    refine le_trans (handle_spawning_length cfg ent _ hmax) ?_
    exact max_le_max (stepParcels_length_le cfg ent 0 ws.parcels) le_rfl

/-- Entropy fixture: split count 3, child offsets 0.25, scale 0.85, spawn draw
1 (so the probabilistic spawn never fires). -/
def entB : Entropy :=
  { scatterDraw := fun _ => 1
    splitCount := fun _ => 3
    childOffX := fun _ _ => 0.25
    childOffY := fun _ _ => 0.25
    childScale := fun _ _ => 0.85
    childJitter := fun _ _ => 1
    spawnDraw := 1
    spawnX := 45000
    spawnY := 5000
    spawnType := "cumulus"
    spawnJitter := 1 }

/-- `cfgA` with the population cap lowered to 2. -/
def cfgB : Config := {cfgA with MAX_PARCELS := 2}

/-- `parcelA` flagged for splitting. -/
def parcelB : UltraOptimizedCloudParcel :=
  {parcelA with flag_for_split := true, split_fading := 0}

/-- Scheduler fixture: one flagged parcel, below the cap of 2. -/
def wsB : OptimizedWeatherSystem :=
  { parcels := [parcelB], sim_time := 0, time_since_last_spawn := 0 }

/-- C3 counterexample: `wsB` holds 1 parcel (within the cap of 2), the parcel
is flagged for splitting, and after one scheduler `step` the population is
1 parent + 3 children = 4 > MAX_PARCELS = 2. -/
theorem c3_counterexample :
    ¬ ((OptimizedWeatherSystem.step cfgB entB none none none wsB).parcels.length ≤
      cfgB.MAX_PARCELS) := by
  norm_num [OptimizedWeatherSystem.step, stepParcels, UltraOptimizedCloudParcel.step,
    UltraOptimizedCloudParcel._handle_boundaries,
    UltraOptimizedCloudParcel._get_lifecycle_factors,
    OptimizedWeatherSystem._handle_cloud_scattering,
    OptimizedWeatherSystem._create_child_parcel, UltraOptimizedCloudParcel.init,
    OptimizedWeatherSystem._handle_spawning, OptimizedWeatherSystem._spawn,
    Config.max_age, Config.M_PER_FRAME, pushTrail, cfgB, cfgA, entB, wsB, parcelB,
    parcelA, presetA, Bool.or_eq_true, decide_eq_true_eq, List.range_succ]

/-- Scheduler fixture: one unflagged mid-domain parcel. -/
def wsA : OptimizedWeatherSystem :=
  { parcels := [parcelA], sim_time := 0, time_since_last_spawn := 0 }

/-- Witness for C3 (amended) at `cfgA` (cap 6) and the one-parcel state `wsA`. -/
theorem c3_witness :
    (OptimizedWeatherSystem.step cfgA entB none none none wsA).parcels.length ≤
      max wsA.parcels.length cfgA.MAX_PARCELS :=
  c3_amended_population_cap cfgA entB none none none wsA
    (by intro p hp
        rw [List.mem_singleton.mp hp]
        rfl)
    rfl (by norm_num [cfgA])

/-- C5: a retained particle with the split flag set contributes, in the
scattering pass, exactly `splitCount` (2 or 3) children followed by itself
with the flag cleared and `split_fading = 60`; each child sits within 500
length units of the parent per axis, inherits the parent's velocity and type,
has radius equal to the parent's radius times a factor in [0.8, 0.9), and age
`CLOUD_GROWTH_FRAMES` — which, for a positive stable-phase duration, places
the child in the stable phase. -/
theorem c5_split_children (cfg : Config) (ent : Entropy) (i : ℕ)
    (p : UltraOptimizedCloudParcel) (rest : List UltraOptimizedCloudParcel)
    (hflag : p.flag_for_split = true)
    (hc2 : 2 ≤ ent.splitCount i) (hc3 : ent.splitCount i ≤ 3)
    (hox : ∀ j, |ent.childOffX i j| ≤ 0.5) (hoy : ∀ j, |ent.childOffY i j| ≤ 0.5)
    (hsc : ∀ j, 0.8 ≤ ent.childScale i j ∧ ent.childScale i j < 0.9)
    (hstable : 0 < cfg.CLOUD_STABLE_FRAMES) :
    (2 ≤ ent.splitCount i ∧ ent.splitCount i ≤ 3) ∧
    OptimizedWeatherSystem._handle_cloud_scattering cfg ent i (p :: rest) =
      ((List.range (ent.splitCount i)).map
        (fun j => OptimizedWeatherSystem._create_child_parcel cfg ent i j p)) ++
      ({p with flag_for_split := false, split_fading := 60} ::
        OptimizedWeatherSystem._handle_cloud_scattering cfg ent (i + 1) rest) ∧
    (∀ j,
      |(OptimizedWeatherSystem._create_child_parcel cfg ent i j p).x - p.x| ≤ 500 ∧
      |(OptimizedWeatherSystem._create_child_parcel cfg ent i j p).y - p.y| ≤ 500 ∧
      (OptimizedWeatherSystem._create_child_parcel cfg ent i j p).vx = p.vx ∧
      (OptimizedWeatherSystem._create_child_parcel cfg ent i j p).vy = p.vy ∧
      (OptimizedWeatherSystem._create_child_parcel cfg ent i j p).type = p.type ∧
      (∃ s, 0.8 ≤ s ∧ s < 0.9 ∧
        (OptimizedWeatherSystem._create_child_parcel cfg ent i j p).r = p.r * s) ∧
      (OptimizedWeatherSystem._create_child_parcel cfg ent i j p).age =
        cfg.CLOUD_GROWTH_FRAMES ∧
      cfg.CLOUD_GROWTH_FRAMES ≤
        (OptimizedWeatherSystem._create_child_parcel cfg ent i j p).age ∧
      (OptimizedWeatherSystem._create_child_parcel cfg ent i j p).age <
        cfg.CLOUD_GROWTH_FRAMES + cfg.CLOUD_STABLE_FRAMES) := by
  refine ⟨⟨hc2, hc3⟩, ?_, ?_⟩
  · simp [OptimizedWeatherSystem._handle_cloud_scattering, hflag]
  · intro j
    have hx : (OptimizedWeatherSystem._create_child_parcel cfg ent i j p).x =
        p.x + ent.childOffX i j * 1000 := rfl
    have hy : (OptimizedWeatherSystem._create_child_parcel cfg ent i j p).y =
        p.y + ent.childOffY i j * 1000 := rfl
    refine ⟨?_, ?_, rfl, rfl, rfl,
      ⟨ent.childScale i j, (hsc j).1, (hsc j).2, rfl⟩, rfl, le_refl _,
      Nat.lt_add_of_pos_right hstable⟩
    · rw [hx, show p.x + ent.childOffX i j * 1000 - p.x = ent.childOffX i j * 1000
          from by ring, abs_mul, abs_of_nonneg (by norm_num : (0:ℚ) ≤ 1000)]
      nlinarith [hox j, abs_nonneg (ent.childOffX i j)]
    · rw [hy, show p.y + ent.childOffY i j * 1000 - p.y = ent.childOffY i j * 1000
          from by ring, abs_mul, abs_of_nonneg (by norm_num : (0:ℚ) ≤ 1000)]
      nlinarith [hoy j, abs_nonneg (ent.childOffY i j)]

/-- Witness for C5: the scattering pass on the flagged `parcelB`. -/
theorem c5_witness :
    OptimizedWeatherSystem._handle_cloud_scattering cfgA entB 0 (parcelB :: []) =
      ((List.range (entB.splitCount 0)).map
        (fun j => OptimizedWeatherSystem._create_child_parcel cfgA entB 0 j parcelB)) ++
      ({parcelB with flag_for_split := false, split_fading := 60} ::
        OptimizedWeatherSystem._handle_cloud_scattering cfgA entB 1 []) :=
  (c5_split_children cfgA entB 0 parcelB [] rfl (by norm_num [entB])
    (by norm_num [entB])
    (fun j => by rw [show entB.childOffX 0 j = 0.25 from rfl]
                 rw [abs_of_nonneg (by norm_num : (0:ℚ) ≤ 0.25)]
                 norm_num)
    (fun j => by rw [show entB.childOffY 0 j = 0.25 from rfl]
                 rw [abs_of_nonneg (by norm_num : (0:ℚ) ≤ 0.25)]
                 norm_num)
    (fun j => by norm_num [entB]) (by norm_num [cfgA])).2.1

/-- C6: a `step` on an empty collection spawns exactly one particle, resets
the spawn timer, and returns without any further processing: the resulting
collection is exactly the singleton of the freshly spawned particle. -/
theorem c6_empty_forced_respawn (cfg : Config) (ent : Entropy)
    (dt t t_s : Option ℚ) (ws : OptimizedWeatherSystem) (h : ws.parcels = []) :
    (OptimizedWeatherSystem.step cfg ent dt t t_s ws).parcels =
      [UltraOptimizedCloudParcel.init cfg ent.spawnX ent.spawnY ent.spawnType
        ent.spawnJitter] ∧
    (OptimizedWeatherSystem.step cfg ent dt t t_s ws).time_since_last_spawn = 0 := by
  simp [OptimizedWeatherSystem.step, OptimizedWeatherSystem._spawn, h]

/-- Scheduler fixture: the empty population. -/
def wsE : OptimizedWeatherSystem :=
  { parcels := [], sim_time := 0, time_since_last_spawn := 0 }

/-- Witness for C6 at the empty state `wsE`. -/
theorem c6_witness :
    (OptimizedWeatherSystem.step cfgA entB none none none wsE).parcels =
      [UltraOptimizedCloudParcel.init cfgA entB.spawnX entB.spawnY entB.spawnType
        entB.spawnJitter] ∧
    (OptimizedWeatherSystem.step cfgA entB none none none wsE).time_since_last_spawn = 0 :=
  c6_empty_forced_respawn cfgA entB none none none wsE rfl

theorem totalDiskArea_nonneg (piQ : ℚ) (hpi : 0 ≤ piQ)
    (ps : List UltraOptimizedCloudParcel) : 0 ≤ totalDiskArea piQ ps := by
  induction ps with
  | nil => simp [totalDiskArea]
  | cons p rest ih =>
    simp only [totalDiskArea, List.map_cons, List.sum_cons]
    simp only [totalDiskArea] at ih
    have hp : 0 ≤ piQ * p.r ^ 2 := by positivity
    linarith

theorem cover_eq_min (piQ : ℚ) (cfg : Config) (ws : OptimizedWeatherSystem) :
    OptimizedWeatherSystem.current_cloud_cover_pct piQ cfg ws =
      min 100 (totalDiskArea piQ ws.parcels /
        (cfg.AREA_SIZE_KM * cfg.AREA_SIZE_KM) * 100 * 5) := by
  by_cases h : ws.parcels = []
  · simp [OptimizedWeatherSystem.current_cloud_cover_pct, h, totalDiskArea]
  · have hne : ws.parcels.isEmpty = false := by
      simpa [List.isEmpty_iff] using h
    simp [OptimizedWeatherSystem.current_cloud_cover_pct, hne]

/-- C7: coverage is 0 for an empty population, otherwise the total
`pi * r^2` disk area over the domain area, scaled by `100 * 5` and clamped to
`[0, 100]`; and for a fixed domain the result is monotone non-decreasing in
the total disk area. -/
theorem c7_coverage_properties (piQ : ℚ) (cfg : Config)
    (ws ws2 : OptimizedWeatherSystem)
    (hpi : 0 < piQ) (hA : 0 < cfg.AREA_SIZE_KM) :
    (ws.parcels = [] → OptimizedWeatherSystem.current_cloud_cover_pct piQ cfg ws = 0) ∧
    (ws.parcels ≠ [] → OptimizedWeatherSystem.current_cloud_cover_pct piQ cfg ws =
      min 100 (totalDiskArea piQ ws.parcels /
        (cfg.AREA_SIZE_KM * cfg.AREA_SIZE_KM) * 100 * 5)) ∧
    (0 ≤ OptimizedWeatherSystem.current_cloud_cover_pct piQ cfg ws ∧
      OptimizedWeatherSystem.current_cloud_cover_pct piQ cfg ws ≤ 100) ∧
    (totalDiskArea piQ ws.parcels ≤ totalDiskArea piQ ws2.parcels →
      OptimizedWeatherSystem.current_cloud_cover_pct piQ cfg ws ≤
        OptimizedWeatherSystem.current_cloud_cover_pct piQ cfg ws2) := by
  have hA2 : 0 < cfg.AREA_SIZE_KM * cfg.AREA_SIZE_KM := by positivity
  refine ⟨?_, ?_, ?_, ?_⟩
  · intro h
    simp [OptimizedWeatherSystem.current_cloud_cover_pct, h]
  · intro _
    exact cover_eq_min piQ cfg ws
  · constructor
    · rw [cover_eq_min]
      refine le_min (by norm_num) ?_
      have := totalDiskArea_nonneg piQ hpi.le ws.parcels
      positivity
    · rw [cover_eq_min]
      exact min_le_left _ _
  · intro hmono
    rw [cover_eq_min, cover_eq_min]
    refine min_le_min le_rfl ?_
    have h1 : totalDiskArea piQ ws.parcels / (cfg.AREA_SIZE_KM * cfg.AREA_SIZE_KM) ≤
        totalDiskArea piQ ws2.parcels / (cfg.AREA_SIZE_KM * cfg.AREA_SIZE_KM) :=
      div_le_div_of_nonneg_right hmono hA2.le
    nlinarith

/-- Witness for C7 at `piQ = 3`, configuration `cfgA`, and the one-parcel
state `wsA`. -/
theorem c7_witness :
    0 ≤ OptimizedWeatherSystem.current_cloud_cover_pct 3 cfgA wsA ∧
    OptimizedWeatherSystem.current_cloud_cover_pct 3 cfgA wsA ≤ 100 :=
  (c7_coverage_properties 3 cfgA wsA wsA (by norm_num) (by norm_num [cfgA])).2.2.1

/-- C8: the average-drift query reports confidence 0 (with no speed and no
heading) exactly on an empty population, and otherwise the fixed confidence
0.9 together with the mean velocity expressed as a speed
(`sqrt(avg_vx^2 + avg_vy^2) * 3.6 / M_PER_FRAME`) and a heading
(`atan2` degrees mod 360). -/
theorem c8_avg_trajectory (sqrtQ : ℚ → ℚ) (atan2deg : ℚ → ℚ → ℚ) (cfg : Config)
    (ws : OptimizedWeatherSystem) :
    ((OptimizedWeatherSystem.get_avg_trajectory sqrtQ atan2deg cfg ws).2.2 = 0 ↔
      ws.parcels = []) ∧
    (ws.parcels = [] →
      (OptimizedWeatherSystem.get_avg_trajectory sqrtQ atan2deg cfg ws).1 = none ∧
      (OptimizedWeatherSystem.get_avg_trajectory sqrtQ atan2deg cfg ws).2.1 = none) ∧
    (ws.parcels ≠ [] →
      (OptimizedWeatherSystem.get_avg_trajectory sqrtQ atan2deg cfg ws).2.2 = 0.9 ∧
      (OptimizedWeatherSystem.get_avg_trajectory sqrtQ atan2deg cfg ws).1 =
        some (sqrtQ (avg_vx ws.parcels ^ 2 + avg_vy ws.parcels ^ 2) * 3.6 /
          cfg.M_PER_FRAME) ∧
      (OptimizedWeatherSystem.get_avg_trajectory sqrtQ atan2deg cfg ws).2.1 =
        some (pymod (atan2deg (avg_vy ws.parcels) (avg_vx ws.parcels)) 360)) := by
  by_cases h : ws.parcels = []
  · simp [OptimizedWeatherSystem.get_avg_trajectory, h]
  · have hne : ws.parcels.isEmpty = false := by
      simpa [List.isEmpty_iff] using h
    simp only [OptimizedWeatherSystem.get_avg_trajectory, hne, Bool.false_eq_true,
      if_false, h]
    norm_num

/-- C9: interpolation of two shape-descriptor lists returns a list of length
`max` of the input lengths, and every unmatched tail descriptor is kept with
all fields unchanged except the opacity, scaled by `1 - t` for a tail from the
first list and by `t` for a tail from the second. -/
theorem c9_interpolation_length_and_tails (es1 es2 : List EllipseT) (t : ℚ) :
    (interpolate_ellipses es1 es2 t).length = max es1.length es2.length ∧
    (∀ i, es2.length ≤ i → ∀ h1 : i < es1.length,
      (interpolate_ellipses es1 es2 t)[i]? =
        some (fade_opacity (es1.get ⟨i, h1⟩) (1 - t))) ∧
    (∀ i, es1.length ≤ i → ∀ h2 : i < es2.length,
      (interpolate_ellipses es1 es2 t)[i]? =
        some (fade_opacity (es2.get ⟨i, h2⟩) t)) := by
  by_cases h1 : es1 = []
  · by_cases h2 : es2 = []
    · subst h1; subst h2
      refine ⟨by simp [interpolate_ellipses], ?_, ?_⟩ <;>
        · intro i _ hlt
          simp at hlt
    · subst h1
      have hne : es2.isEmpty = false := by simpa [List.isEmpty_iff] using h2
      refine ⟨?_, ?_, ?_⟩
      · simp [interpolate_ellipses, hne]
      · intro i hle hlt
        simp at hlt
      · intro i _ hlt
        simp only [interpolate_ellipses, hne, List.isEmpty_nil, Bool.true_and,
          Bool.false_eq_true, if_false, if_true]
        rw [List.getElem?_map, List.getElem?_eq_getElem hlt]
        simp [List.get_eq_getElem]
  · by_cases h2 : es2 = []
    · subst h2
      have hne : es1.isEmpty = false := by simpa [List.isEmpty_iff] using h1
      refine ⟨?_, ?_, ?_⟩
      · simp [interpolate_ellipses, hne]
      · intro i _ hlt
        simp only [interpolate_ellipses, hne, List.isEmpty_nil, Bool.and_true,
          Bool.false_eq_true, if_false, if_true]
        rw [List.getElem?_map, List.getElem?_eq_getElem hlt]
        simp [List.get_eq_getElem]
      · intro i hle hlt
        simp at hlt
    · have hne1 : es1.isEmpty = false := by simpa [List.isEmpty_iff] using h1
      have hne2 : es2.isEmpty = false := by simpa [List.isEmpty_iff] using h2
      refine ⟨?_, ?_, ?_⟩
      · simp [interpolate_ellipses, hne1, hne2]
      · intro i hle hlt
        have hmax : i < max es1.length es2.length := lt_max_of_lt_left hlt
        simp only [interpolate_ellipses, hne1, hne2, Bool.false_and,
          Bool.false_eq_true, if_false]
        rw [List.getElem?_map, List.getElem?_range hmax]
        simp only [Option.map_some']
        rw [dif_pos hlt, dif_neg (not_lt.mpr hle)]
      · intro i hle hlt
        have hmax : i < max es1.length es2.length := lt_max_of_lt_right hlt
        simp only [interpolate_ellipses, hne1, hne2, Bool.false_and,
          Bool.false_eq_true, if_false]
        rw [List.getElem?_map, List.getElem?_range hmax]
        simp only [Option.map_some']
        rw [dif_neg (not_lt.mpr hle)]
        congr 1
        rw [List.getD_eq_getElem?_getD, List.getElem?_eq_getElem hlt]
        simp [List.get_eq_getElem]
